import Mathlib

/-!
Shallow embedding of `src/functions/summarize_video/main.py` (adclip):
the interval aligner `match_with_video_shots`, the duration-convergence
retry loop of `summarize_transcript`, and the surrounding request handling.
External collaborators (the LLM oracle, the firestore lookups, the
language-specific span mapper) are abstract parameters.  Times and
durations are modelled as rationals; the cursor-advancing `while` loops
are modelled by structural recursion on an explicit fuel argument that is
always large enough (`length + 1`) to reproduce the loop exactly, and a
cursor running past the end of its list (Python `IndexError`) is `none`.
-/

set_option autoImplicit false

namespace AdClip

/-- A camera shot `{start_time, end_time}` (one entry of `video_shots`). -/
structure Shot where
  start_time : ℚ
  end_time : ℚ
deriving DecidableEq

/-- A transcribed word with timestamps (one entry of `words`). -/
structure Word where
  startTime : ℚ
  endTime : ℚ
deriving DecidableEq

/-- A transcript line / output segment: `{text, startTime, endTime, duration}`.
The Python dict gains its `duration` key inside `match_with_video_shots`;
here the field is always present and is overwritten by the aligner. -/
structure Segment where
  text : String
  startTime : ℚ
  endTime : ℚ
  duration : ℚ
deriving DecidableEq

/-- The two shared cursors of `match_with_video_shots`
(`shot_index` and `word_index`, main.py lines 71-72). -/
structure Cursors where
  shot : Nat
  word : Nat
deriving DecidableEq

/-- Fuel-indexed body of
`while video_shots[shot_index]['end_time'] <= t: shot_index += 1`
(main.py line 74).  `none` models the `IndexError` raised when the cursor
runs past the end of the list while the condition is re-tested. -/
def advShotLeGo (shots : List Shot) (t : ℚ) : Nat → Nat → Option Nat
  | 0, _ => none
  | fuel+1, i =>
    match shots[i]? with
    | none => none
    | some s => if s.end_time ≤ t then advShotLeGo shots t fuel (i+1) else some i

/-- The shot-cursor advance of the start phase (main.py line 74).
`shots.length + 1` fuel always suffices: the loop either stops at a valid
index or raises at index `shots.length`. -/
def advanceShotLe (shots : List Shot) (t : ℚ) (i : Nat) : Option Nat :=
  advShotLeGo shots t (shots.length + 1) i

/-- Fuel-indexed body of
`while video_shots[shot_index]['end_time'] < t: shot_index += 1`
(main.py line 88). -/
def advShotLtGo (shots : List Shot) (t : ℚ) : Nat → Nat → Option Nat
  | 0, _ => none
  | fuel+1, i =>
    match shots[i]? with
    | none => none
    | some s => if s.end_time < t then advShotLtGo shots t fuel (i+1) else some i

/-- The shot-cursor advance of the end phase (main.py line 88). -/
def advanceShotLt (shots : List Shot) (t : ℚ) (i : Nat) : Option Nat :=
  advShotLtGo shots t (shots.length + 1) i

/-- Fuel-indexed body of
`while word_index + 1 < len(words) - 1 and words[word_index+1]['endTime'] < t:
word_index += 1` (main.py lines 79-81).  The guard keeps every access in
bounds, so this loop is total. -/
def advWordNextGo (words : List Word) (t : ℚ) : Nat → Nat → Nat
  | 0, i => i
  | fuel+1, i =>
    if h : i + 1 < words.length - 1 then
      if (words.get ⟨i + 1, by omega⟩).endTime < t then advWordNextGo words t fuel (i+1)
      else i
    else i

/-- The word-cursor advance of the start phase (main.py lines 79-81). -/
def advanceWordNext (words : List Word) (t : ℚ) (i : Nat) : Nat :=
  advWordNextGo words t (words.length + 1) i

/-- Fuel-indexed body of
`while word_index < len(words) - 2 and words[word_index]['startTime'] < t:
word_index += 1` (main.py lines 94-96). -/
def advWordCurGo (words : List Word) (t : ℚ) : Nat → Nat → Nat
  | 0, i => i
  | fuel+1, i =>
    if h : i < words.length - 2 then
      if (words.get ⟨i, by omega⟩).startTime < t then advWordCurGo words t fuel (i+1)
      else i
    else i

/-- The word-cursor advance of the end phase (main.py lines 94-96). -/
def advanceWordCur (words : List Word) (t : ℚ) (i : Nat) : Nat :=
  advWordCurGo words t (words.length + 1) i

/-- One iteration of the `for index, line in enumerate(transcript)` body of
`match_with_video_shots` (main.py lines 73-102): both boundary adjustments
for one segment, threading the shared shot/word cursors.  `none` is a
Python `IndexError` (shot cursor past the end, or `words` empty). -/
def alignStep (shots : List Shot) (words : List Word) (c : Cursors) (line : Segment) :
    Option (Segment × Cursors) :=
  (advanceShotLe shots line.startTime c.shot).bind fun si =>
  (shots[si]?).bind fun video_shot =>
  let wi := advanceWordNext words line.startTime c.word
  (words[wi]?).bind fun previous_word =>
  let start_time :=
    if previous_word.startTime ≠ line.startTime then
      max previous_word.endTime (min line.startTime video_shot.start_time)
    else min line.startTime video_shot.start_time
  (advanceShotLt shots line.endTime si).bind fun si2 =>
  (shots[si2]?).bind fun video_shot2 =>
  let wi2 := advanceWordCur words line.endTime wi
  (words[wi2]?).bind fun next_word =>
  let end_time :=
    if next_word.endTime ≠ line.endTime then
      min (max line.endTime video_shot2.end_time) next_word.startTime
    else max line.endTime video_shot2.end_time
  some (Segment.mk line.text start_time end_time (end_time - start_time), ⟨si2, wi2⟩)

/-- The whole `for` loop of `match_with_video_shots`, threading cursors
left to right across the transcript. -/
def alignGo (shots : List Shot) (words : List Word) (c : Cursors) :
    List Segment → Option (List Segment)
  | [] => some []
  | l :: ls =>
    (alignStep shots words c l).bind fun sc =>
    (alignGo shots words sc.2 ls).bind fun rest =>
    some (sc.1 :: rest)

/-- `match_with_video_shots(video_shots, transcript, words)`
(main.py lines 56-103): both cursors start at `0`. -/
def match_with_video_shots (shots : List Shot) (transcript : List Segment)
    (words : List Word) : Option (List Segment) :=
  alignGo shots words ⟨0, 0⟩ transcript

/-- `calculate_duration` (main.py lines 39-54) with the language-specific
`get_clips_from_transcript` span mapper abstracted into the already
computed clip list: total duration of the aligned clips; `none` is the
`IndexError` escaping from `match_with_video_shots`. -/
def calculate_duration (video_shots : List Shot) (clips : List Segment)
    (words : List Word) : Option ℚ :=
  (match_with_video_shots video_shots clips words).map
    (List.foldl (fun acc clip => acc + clip.duration) 0)

/-! ## The duration-convergence retry loop (main.py lines 175-193) -/

/-- The loop-local state of `summarize_transcript`'s automated branch:
`temperature`, `shortened_text`, `duration`, plus a count of the
`llm.send_transcript_to_llm` calls made so far. -/
structure LoopState where
  temperature : ℚ
  shortened : String
  duration : ℚ
  calls : Nat
deriving DecidableEq

/-- The fixed data of the retry loop.  `oracle n p` is the reply of the
`n`-th `llm.send_transcript_to_llm` call on prompt text `p`;
`mkPrompt` is `llm.make_prompt`; `durOf` is `calculate_duration` of a
candidate shortened text (`none` = `IndexError`). -/
structure LoopParams where
  oracle : Nat → String → String
  mkPrompt : String → Option String → String
  durOf : String → Option ℚ
  fullText : String
  userPrompt : Option String
  minD : ℚ
  maxD : ℚ

/-- The `while` test (main.py line 178):
`temperature < 0.6 and (duration > max_duration or duration < min_duration)`. -/
def loopCond (P : LoopParams) (st : LoopState) : Bool :=
  decide (st.temperature < 0.6) &&
    (decide (P.maxD < st.duration) || decide (st.duration < P.minD))

/-- One iteration of the loop body (main.py lines 179-193): below the
minimum, re-query on the original full text without touching `duration`
or `temperature`; otherwise re-query on the current shortened text,
recompute the duration and bump the temperature by `0.1`. -/
def loopStep (P : LoopParams) (st : LoopState) : Option LoopState :=
  if st.duration < P.minD then
    some { st with shortened := P.oracle st.calls (P.mkPrompt P.fullText P.userPrompt),
                   calls := st.calls + 1 }
  else
    let s' := P.oracle st.calls (P.mkPrompt st.shortened P.userPrompt)
    match P.durOf s' with
    | none => none
    | some d =>
      some ⟨st.temperature + 0.1, s', d, st.calls + 1⟩

/-- Outcome of running the retry loop with a given amount of fuel:
`state` = the loop test failed and the loop exited, `err` = an
`IndexError` escaped from `calculate_duration`, `fuelOut` = the loop was
still running when the fuel ran out. -/
inductive LoopOut where
  | state (st : LoopState)
  | err (calls : Nat)
  | fuelOut
deriving DecidableEq

/-- The retry loop itself (main.py lines 177-193), fuel-indexed. -/
def loopRun (P : LoopParams) : Nat → LoopState → LoopOut
  | 0, st => if loopCond P st then .fuelOut else .state st
  | fuel+1, st =>
    if loopCond P st then
      match loopStep P st with
      | none => .err st.calls
      | some st' => loopRun P fuel st'
    else .state st

/-! ## The request surface of `summarize_transcript` (main.py lines 106-238) -/

/-- `MAX_DURATION` (main.py line 31). -/
def MAX_DURATION : ℚ := 40

/-- `MIN_DURATION` (main.py line 32). -/
def MIN_DURATION : ℚ := 10

/-- `LANGUAGE_CODE` (main.py line 33). -/
def LANGUAGE_CODE : String := "en-US"

/-- The `try/except` of main.py lines 133-140.  `maxRaw`/`minRaw` are the
results of the two `float(...)` conversions (`none` = the field is missing
or unparseable, so `float` raises); `langRaw` is `request.data.get('language_code')`
(`none` = absent), which itself never raises.  Any failure resets all
three values to the module defaults. -/
def resolveParams (maxRaw minRaw : Option ℚ) (langRaw : Option String) :
    ℚ × ℚ × Option String :=
  match maxRaw, minRaw with
  | some maxD, some minD => (maxD, minD, langRaw)
  | _, _ => (MAX_DURATION, MIN_DURATION, some LANGUAGE_CODE)

/-- The external collaborators and request fields of one
`summarize_transcript` call.  `oracle`, `mkPrompt`, `mkPromptSummarize`,
`keepBranding`, `mkPromptMatch`, `transformToShortened`, `stripSpace`,
`stripWs` model the `llm` module; `getClipsDefault`/`getClipsThai` model
`DefaultLanguage().get_clips_from_transcript` / `Thai().get_clips_from_transcript`
applied to the fixed transcript; `videoShots` is `firestore.get_video_shots(filename)`. -/
structure Env where
  oracle : Nat → String → String
  mkPrompt : String → Option String → String
  mkPromptSummarize : String → Option String → String
  keepBranding : String → String
  mkPromptMatch : String → String → String
  transformToShortened : String → String
  stripSpace : String → String
  stripWs : String → String
  getClipsDefault : String → List Segment
  getClipsThai : String → List Segment
  videoShots : List Shot
  transcriptWords : List Word
  texts : List String
  userPrompt : Option String
  maxRaw : Option ℚ
  minRaw : Option ℚ
  langRaw : Option String
  version : Option String

/-- How one `summarize_transcript` request ends.  `blockedValue` is the
returned `ValueError` of main.py line 161; `ok` is the
`{'summarized_transcript': segments}` payload; `nameError` is the
`UnboundLocalError` raised at main.py line 219 when neither version branch
assigned `full_text`/`shortened_text`; `indexError` is an `IndexError`
escaping from `match_with_video_shots`; `timeout` means the retry loop was
still running when the fuel ran out. -/
inductive SummarizeResult where
  | blockedValue (msg : String)
  | ok (segments : List Segment)
  | nameError
  | indexError
  | timeout
deriving DecidableEq

/-- The shared tail of `summarize_transcript` (main.py lines 219-238):
persist, re-map the shortened text to clips, align, and return the
segments.  `fullText`/`shortened` are `none` when the corresponding
Python local was never assigned, in which case line 219 raises. -/
def summarizeTail (E : Env) (getClips : String → List Segment)
    (fullText shortened : Option String) (calls : Nat) : SummarizeResult × Nat :=
  match fullText, shortened with
  | some _, some sh =>
    (match match_with_video_shots E.videoShots (getClips sh) E.transcriptWords with
     | none => (.indexError, calls)
     | some segs => (.ok segs, calls))
  | _, _ => (.nameError, calls)

/-- The blocked-response sentinel compared against at main.py line 160. -/
def blockedSentinel : String := "The response was blocked"

/-- `summarize_transcript` (main.py lines 106-238) with the external
collaborators abstracted into `E` and the retry loop bounded by `fuel`.
Returns the outcome together with the number of oracle calls made. -/
def summarizeModel (E : Env) (fuel : Nat) : SummarizeResult × Nat :=
  let params := resolveParams E.maxRaw E.minRaw E.langRaw
  let getClips := if params.2.2 = some "th-TH" then E.getClipsThai else E.getClipsDefault
  let calcDur : String → Option ℚ := fun sh =>
    calculate_duration E.videoShots (getClips sh) E.transcriptWords
  if E.version = some "automated" then
    let fullText := String.intercalate "\n" E.texts
    let r0 := E.oracle 0 (E.mkPrompt fullText E.userPrompt)
    if r0 = blockedSentinel then
      (.blockedValue "The response was blocked due to potential violation of Responsible AI", 1)
    else
      match calcDur r0 with
      | none => (.indexError, 1)
      | some d0 =>
        let P : LoopParams :=
          ⟨E.oracle, E.mkPrompt, calcDur, fullText, E.userPrompt, params.2.1, params.1⟩
        match loopRun P fuel ⟨0.2, r0, d0, 1⟩ with
        | .fuelOut => (.timeout, 0)
        | .err calls => (.indexError, calls)
        | .state st => summarizeTail E getClips (some fullText) (some st.shortened) st.calls
  else if E.version = some "topic" then
    let fullText := String.intercalate "\n"
      (((List.range E.texts.length).zip E.texts).map
        (fun p => "Line " ++ toString p.1 ++ ": " ++ p.2))
    let bullets := E.stripSpace (E.oracle 0 (E.mkPromptSummarize fullText E.userPrompt))
    let branding := E.stripWs (E.oracle 1 (E.keepBranding fullText))
    let matched := E.stripWs (E.oracle 2 (E.mkPromptMatch fullText bullets)) ++
      "\n" ++ "\n" ++ branding
    let shortened := E.transformToShortened matched
    summarizeTail E getClips (some fullText) (some shortened) 3
  else
    summarizeTail E getClips none none 0

/-! ## Spec-side reformulation of the start adjustment (for claim C4).
These definitions are written from the specification's description of the
start-adjustment step, independently of the code-side `advanceShotLe` /
`advanceWordNext`, so that the code can be proved to refine them. -/

/-- Spec wording: "advancing the shot cursor past shots whose end ≤ t":
the first index at or after `i` whose shot ends strictly after `t`;
`none` when the cursor runs off the list. -/
def specFirstShotAfterGo (shots : List Shot) (t : ℚ) : Nat → Nat → Option Nat
  | 0, _ => none
  | fuel+1, i =>
    match shots[i]? with
    | none => none
    | some s => if t < s.end_time then some i else specFirstShotAfterGo shots t fuel (i+1)

/-- Spec-side shot cursor for the start phase. -/
def specFirstShotAfter (shots : List Shot) (t : ℚ) (i : Nat) : Option Nat :=
  specFirstShotAfterGo shots t (shots.length + 1) i

/-- Spec wording: "advance the word cursor while the next word's end < t,
bounded so it never passes the second-to-last word" (cursor always
`≤ length - 2`). -/
def specWordCursorGo (words : List Word) (t : ℚ) : Nat → Nat → Nat
  | 0, i => i
  | fuel+1, i =>
    if h : i + 1 ≤ words.length - 2 then
      if (words.get ⟨i + 1, by omega⟩).endTime < t then specWordCursorGo words t fuel (i+1)
      else i
    else i

/-- Spec-side word cursor for the start phase. -/
def specWordCursor (words : List Word) (t : ℚ) (i : Nat) : Nat :=
  specWordCursorGo words t (words.length + 1) i

/-- Spec-side description of the adjusted start of one segment: tentative
start `min(s.start, shot.start)` for the shot under the advanced cursor,
then clamped to be no earlier than the cursor word's end unless that word
starts exactly at `s.start`. -/
def specNewStart (shots : List Shot) (words : List Word) (c : Cursors) (line : Segment) :
    Option ℚ :=
  (specFirstShotAfter shots line.startTime c.shot).bind fun si =>
  (shots[si]?).bind fun shot =>
  let tentative := min line.startTime shot.start_time
  let wi := specWordCursor words line.startTime c.word
  (words[wi]?).bind fun w =>
  some (if w.startTime ≠ line.startTime then max tentative w.endTime else tentative)

/-! ## Helper lemmas about the aligner -/

/-- The start-phase word advance only ever moves the cursor to indexes
`≤ length - 2` (its guard is `i + 1 < length - 1`). -/
theorem advWordNextGo_le (words : List Word) (t : ℚ) :
    ∀ (fuel i : Nat), i ≤ words.length - 2 →
      advWordNextGo words t fuel i ≤ words.length - 2 := by
  intro fuel
  induction fuel with
  | zero => intro i hi; exact hi
  | succ n ih =>
    intro i hi
    rw [advWordNextGo]
    by_cases h : i + 1 < words.length - 1
    · rw [dif_pos h]
      by_cases h2 : (words.get ⟨i + 1, by omega⟩).endTime < t
      · rw [if_pos h2]; exact ih (i+1) (by omega)
      · rw [if_neg h2]; exact hi
    · rw [dif_neg h]; exact hi

/-- The end-phase word advance only ever moves the cursor to indexes
`≤ length - 2` (its guard is `i < length - 2`). -/
theorem advWordCurGo_le (words : List Word) (t : ℚ) :
    ∀ (fuel i : Nat), i ≤ words.length - 2 →
      advWordCurGo words t fuel i ≤ words.length - 2 := by
  intro fuel
  induction fuel with
  | zero => intro i hi; exact hi
  | succ n ih =>
    intro i hi
    rw [advWordCurGo]
    by_cases h : i < words.length - 2
    · rw [dif_pos h]
      by_cases h2 : (words.get ⟨i, by omega⟩).startTime < t
      · rw [if_pos h2]; exact ih (i+1) (by omega)
      · rw [if_neg h2]; exact hi
    · rw [dif_neg h]; exact hi

/-- Successful runs of `alignStep` decompose into the cursor advances and
the two boundary formulas of main.py lines 74-102. -/
theorem alignStep_char (shots : List Shot) (words : List Word) (c : Cursors)
    (line out : Segment) (cout : Cursors)
    (h : alignStep shots words c line = some (out, cout)) :
    ∃ si video_shot previous_word si2 video_shot2 next_word,
      advanceShotLe shots line.startTime c.shot = some si ∧
      shots[si]? = some video_shot ∧
      words[advanceWordNext words line.startTime c.word]? = some previous_word ∧
      advanceShotLt shots line.endTime si = some si2 ∧
      shots[si2]? = some video_shot2 ∧
      words[advanceWordCur words line.endTime
        (advanceWordNext words line.startTime c.word)]? = some next_word ∧
      out.text = line.text ∧
      out.startTime = (if previous_word.startTime ≠ line.startTime then
          max previous_word.endTime (min line.startTime video_shot.start_time)
        else min line.startTime video_shot.start_time) ∧
      out.endTime = (if next_word.endTime ≠ line.endTime then
          min (max line.endTime video_shot2.end_time) next_word.startTime
        else max line.endTime video_shot2.end_time) ∧
      out.duration = out.endTime - out.startTime ∧
      cout = ⟨si2, advanceWordCur words line.endTime
        (advanceWordNext words line.startTime c.word)⟩ := by
  simp only [alignStep, Option.bind_eq_some, Option.some.injEq, Prod.mk.injEq] at h
  obtain ⟨si, h1, video_shot, h2, previous_word, h3, si2, h4, video_shot2, h5,
    next_word, h6, h7, h8⟩ := h
  refine ⟨si, video_shot, previous_word, si2, video_shot2, next_word,
    h1, h2, h3, h4, h5, h6, ?_, ?_, ?_, ?_, h8.symm⟩ <;> rw [← h7]

/-! ## Claims about the convergence controller -/

/-- Claim C1 (code bug): the retry loop is claimed to terminate within four
retries for every oracle behaviour, but in the `duration < min_duration`
branch the code re-queries the oracle without recomputing `duration` or
incrementing `temperature`, so from any in-loop state whose duration is
below the minimum the `while` test never changes and the loop never
terminates: for every fuel bound the loop is still running. -/
theorem summarize_loop_diverges_below_min (P : LoopParams) :
    ∀ (fuel : Nat) (st : LoopState), st.temperature < 0.6 → st.duration < P.minD →
      loopRun P fuel st = .fuelOut := by
  intro fuel
  induction fuel with
  | zero =>
    intro st htemp hdur
    simp [loopRun, loopCond, htemp, hdur]
  | succ n ih =>
    intro st htemp hdur
    have h1 : loopCond P st = true := by simp [loopCond, htemp, hdur]
    simp only [loopRun, h1, if_true, loopStep, if_pos hdur]
    exact ih _ htemp hdur

/-- Concrete loop parameters for the C1 witness: every candidate shortened
text evaluates to duration 5 with requested range [10, 40]. -/
def loopParamsLow : LoopParams :=
  ⟨fun _ _ => "x", fun s _ => s, fun _ => some 5, "full", none, 10, 40⟩

/-- Witness for C1: from the state reached after the first attempt
(temperature 0.2, duration 5 < 10), seven more fuel units still leave the
loop running. -/
theorem summarize_loop_diverges_below_min_witness :
    (0.2:ℚ) < 0.6 ∧ (5:ℚ) < 10 ∧
      loopRun loopParamsLow 7 ⟨0.2, "x", 5, 1⟩ = .fuelOut :=
  ⟨by norm_num, by norm_num,
    summarize_loop_diverges_below_min loopParamsLow 7 ⟨0.2, "x", 5, 1⟩
      (by norm_num) (by norm_num [loopParamsLow])⟩

/-- Concrete loop parameters for the C2 counterexample: the first loop
reply is "b", whose duration is 50, while the stored duration is 5. -/
def loopParamsStale : LoopParams :=
  ⟨fun n _ => if n = 0 then "a" else "b", fun s _ => s,
   fun s => if s = "b" then some 50 else some 5, "full", none, 10, 40⟩

/-- Counterexample for C2: the below-minimum transition does not
re-evaluate the duration before the next loop test.  From state
(temperature 0.2, shortened "a", duration 5, 1 call) the loop body yields
shortened text "b" but keeps the stale duration 5, although the duration
of "b" is 50; the next loop test therefore still sees 5 (and keeps
looping), while the actual duration 50 would have kept looping for the
opposite reason only if it had been recomputed. -/
theorem loop_below_min_keeps_stale_duration_ce :
    loopStep loopParamsStale ⟨0.2, "a", 5, 1⟩ = some ⟨0.2, "b", 5, 2⟩ ∧
    loopParamsStale.durOf "b" = some 50 ∧ (5:ℚ) ≠ 50 ∧
    loopCond loopParamsStale ⟨0.2, "b", 5, 2⟩ = true := by
  refine ⟨?_, ?_, ?_, ?_⟩ <;> with_unfolding_all decide

/-- Claim C2 (amended): in every iteration of the convergence loop, if the
stored duration is below the minimum the oracle is re-invoked on the
original full transcript text and neither the temperature nor the stored
duration changes (the next loop test reuses the old duration); if the
stored duration is above the maximum, the oracle is re-invoked on the
current shortened text, the duration is recomputed from the new reply and
the temperature is incremented by 0.1.  Only the above-maximum transition
re-evaluates the duration before the next loop test. -/
theorem loop_transition_behavior (P : LoopParams) (st : LoopState) (n : Nat)
    (hcond : loopCond P st = true) :
    (st.duration < P.minD →
      loopRun P (n+1) st =
        loopRun P n { st with
          shortened := P.oracle st.calls (P.mkPrompt P.fullText P.userPrompt),
          calls := st.calls + 1 }) ∧
    (¬ st.duration < P.minD →
      ∀ d, P.durOf (P.oracle st.calls (P.mkPrompt st.shortened P.userPrompt)) = some d →
        loopRun P (n+1) st =
          loopRun P n ⟨st.temperature + 0.1,
            P.oracle st.calls (P.mkPrompt st.shortened P.userPrompt), d,
            st.calls + 1⟩) := by
  constructor
  · intro hdur
    simp only [loopRun, hcond, if_true, loopStep, if_pos hdur]
  · intro hdur d hd
    simp only [loopRun, hcond, if_true, loopStep, if_neg hdur, hd]

/-- Witness for C2 (amended): both transition shapes at concrete states,
with the hypotheses evaluated. -/
theorem loop_transition_behavior_witness :
    loopCond loopParamsStale ⟨0.2, "a", 5, 1⟩ = true ∧ (5:ℚ) < 10 ∧
      loopRun loopParamsStale 2 ⟨0.2, "a", 5, 1⟩ =
        loopRun loopParamsStale 1 ⟨0.2, "b", 5, 2⟩ :=
  ⟨by with_unfolding_all decide, by norm_num,
    (loop_transition_behavior loopParamsStale ⟨0.2, "a", 5, 1⟩ 1
        (by with_unfolding_all decide)).1 (by norm_num [loopParamsStale])⟩

/-! ## Claims about the request surface -/

/-- Claim C8: input defaulting is all-or-nothing: if either the `max` or
the `min` field fails to convert to a float, then `max_duration`,
`min_duration` and `language_code` are all reset to the defaults 40, 10
and "en-US", including any of the three that was present and valid. -/
theorem resolveParams_all_or_nothing (maxRaw minRaw : Option ℚ) (langRaw : Option String)
    (h : maxRaw = none ∨ minRaw = none) :
    resolveParams maxRaw minRaw langRaw = (40, 10, some "en-US") := by
  rcases h with h | h
  · subst h; cases minRaw <;> rfl
  · subst h; cases maxRaw <;> rfl

/-- Witness for C8: `min` and `language_code` are present and valid but
`max` is missing/unparseable; all three come back as the defaults. -/
theorem resolveParams_all_or_nothing_witness :
    ((none : Option ℚ) = none ∨ (some (20:ℚ)) = none) ∧
      resolveParams none (some 20) (some "th-TH") = (40, 10, some "en-US") :=
  ⟨Or.inl rfl, resolveParams_all_or_nothing none (some 20) (some "th-TH") (Or.inl rfl)⟩

/-- Claim C9: a request whose `version` is neither "automated" nor "topic"
never yields a segments result: neither branch assigns
`full_text`/`shortened_text`, so the persistence call raises an unbound
local variable error after zero oracle calls. -/
theorem unknown_version_name_error (E : Env) (fuel : Nat)
    (h1 : E.version ≠ some "automated") (h2 : E.version ≠ some "topic") :
    summarizeModel E fuel = (.nameError, 0) := by
  simp [summarizeModel, h1, h2, summarizeTail]

/-- Concrete environment for the C9 witness: `version = "v2"`. -/
def envUnknownVersion : Env :=
  ⟨fun _ _ => "r", fun s _ => s, fun s _ => s, id, fun s _ => s, id, id, id,
   fun _ => [], fun _ => [], [], [], ["a"], none, none, none, none, some "v2"⟩

/-- Witness for C9 at `version = "v2"`. -/
theorem unknown_version_name_error_witness :
    envUnknownVersion.version ≠ some "automated" ∧
      envUnknownVersion.version ≠ some "topic" ∧
      summarizeModel envUnknownVersion 3 = (.nameError, 0) :=
  ⟨by decide, by decide,
    unknown_version_name_error envUnknownVersion 3 (by decide) (by decide)⟩

/-! ## Claims about the interval aligner -/

/-- Claim C10: throughout alignment the shared word cursor never exceeds
`length - 2` (Nat subtraction, i.e. `max(0, len(words) - 2)`): starting
from any in-bound cursor, both advancement loops stay within that bound,
so for word lists of length ≥ 2 the cursor stays strictly below the last
index and the final word is never used as `previous_word` or `next_word`;
and `alignStep` returns an in-bound word cursor for the next segment. -/
theorem word_cursor_bounded (words : List Word) (t : ℚ) (i : Nat)
    (hi : i ≤ words.length - 2) :
    advanceWordNext words t i ≤ words.length - 2 ∧
    advanceWordCur words t i ≤ words.length - 2 ∧
    (2 ≤ words.length → advanceWordNext words t i < words.length - 1) ∧
    (2 ≤ words.length → advanceWordCur words t i < words.length - 1) ∧
    ∀ (shots : List Shot) (sc : Nat) (line : Segment) (out : Segment × Cursors),
      alignStep shots words ⟨sc, i⟩ line = some out →
        out.2.word ≤ words.length - 2 := by
  have hn : advanceWordNext words t i ≤ words.length - 2 :=
    advWordNextGo_le words t _ i hi
  have hc : advanceWordCur words t i ≤ words.length - 2 :=
    advWordCurGo_le words t _ i hi
  refine ⟨hn, hc, fun h2 => by omega, fun h2 => by omega, ?_⟩
  intro shots sc line out h
  obtain ⟨si, vs, pw, si2, vs2, nw, h1, h2, h3, h4, h5, h6, h7, h8, h9, h10, h11⟩ :=
    alignStep_char shots words ⟨sc, i⟩ line out.1 out.2 h
  rw [h11]
  exact advWordCurGo_le words line.endTime _ _
    (advWordNextGo_le words line.startTime _ i hi)

/-- Witness for C10 at a three-word list, cursor 0, and a successful
concrete `alignStep`. -/
theorem word_cursor_bounded_witness :
    (0 ≤ ([⟨0,1⟩, ⟨2,3⟩, ⟨100,101⟩] : List Word).length - 2) ∧
    advanceWordNext [⟨0,1⟩, ⟨2,3⟩, ⟨100,101⟩] 5 0 ≤ 1 ∧
    advanceWordCur [⟨0,1⟩, ⟨2,3⟩, ⟨100,101⟩] 5 0 ≤ 1 := by
  have h := word_cursor_bounded [⟨0,1⟩, ⟨2,3⟩, ⟨100,101⟩] 5 0 (by decide)
  exact ⟨by decide, h.1, h.2.1⟩

/-- Claim C3: for every segment processed by the aligner, the adjusted
start is at most the original start unless the word clamp applies
(`previous_word.startTime ≠ line.startTime`), in which case the adjusted
start is never earlier than `previous_word.endTime` and is either exactly
`previous_word.endTime` or still at most the original start; symmetrically
the adjusted end is at least the original end unless the word clamp
applies (`next_word.endTime ≠ line.endTime`), in which case the adjusted
end is never later than `next_word.startTime` and is either exactly
`next_word.startTime` or still at least the original end. -/
theorem alignStep_monotone_snapping (shots : List Shot) (words : List Word)
    (c : Cursors) (line out : Segment) (cout : Cursors) (pw nw : Word)
    (h : alignStep shots words c line = some (out, cout))
    (hp : words[advanceWordNext words line.startTime c.word]? = some pw)
    (hn : words[advanceWordCur words line.endTime
      (advanceWordNext words line.startTime c.word)]? = some nw) :
    (pw.startTime = line.startTime → out.startTime ≤ line.startTime) ∧
    (pw.startTime ≠ line.startTime →
      pw.endTime ≤ out.startTime ∧
        (out.startTime = pw.endTime ∨ out.startTime ≤ line.startTime)) ∧
    (nw.endTime = line.endTime → line.endTime ≤ out.endTime) ∧
    (nw.endTime ≠ line.endTime →
      out.endTime ≤ nw.startTime ∧
        (out.endTime = nw.startTime ∨ line.endTime ≤ out.endTime)) := by
  obtain ⟨si, vs, pw', si2, vs2, nw', h1, h2, h3, h4, h5, h6, h7, h8, h9, h10, h11⟩ :=
    alignStep_char shots words c line out cout h
  have hpw : pw = pw' := by rw [hp] at h3; exact Option.some_injective _ h3
  have hnw : nw = nw' := by rw [hn] at h6; exact Option.some_injective _ h6
  subst hpw hnw
  constructor
  · intro he
    rw [h8, if_neg (by simp [he])]
    exact min_le_left _ _
  constructor
  · intro hne
    rw [h8, if_pos hne]
    refine ⟨le_max_left _ _, ?_⟩
    rcases le_total pw.endTime (min line.startTime vs.start_time) with hle | hle
    · exact Or.inr ((max_eq_right hle).le.trans (min_le_left _ _))
    · exact Or.inl (max_eq_left hle)
  constructor
  · intro he
    rw [h9, if_neg (by simp [he])]
    exact le_max_left _ _
  · intro hne
    rw [h9, if_pos hne]
    refine ⟨min_le_right _ _, ?_⟩
    rcases le_total (max line.endTime vs2.end_time) nw.startTime with hle | hle
    · exact Or.inr ((le_max_left _ _).trans (min_eq_left hle).ge)
    · exact Or.inl (min_eq_right hle)

/-- Witness for C3: the monotone-snapping facts at a concrete clamped
alignment step (shot `[0,10]`, words `[0,1],[2,3],[100,101]`, segment
`[5,6]`, adjusted to `[3,2]`). -/
theorem alignStep_monotone_snapping_witness :
    alignStep [⟨0,10⟩] [⟨0,1⟩, ⟨2,3⟩, ⟨100,101⟩] ⟨0,0⟩ ⟨"", 5, 6, 0⟩ =
      some (⟨"", 3, 2, -1⟩, ⟨0, 1⟩) ∧
    (((2:ℚ) = 5 → (3:ℚ) ≤ 5) ∧
     ((2:ℚ) ≠ 5 → (3:ℚ) ≤ 3 ∧ ((3:ℚ) = 3 ∨ (3:ℚ) ≤ 5)) ∧
     ((3:ℚ) = 6 → (6:ℚ) ≤ 2) ∧
     ((3:ℚ) ≠ 6 → (2:ℚ) ≤ 2 ∧ ((2:ℚ) = 2 ∨ (6:ℚ) ≤ 2))) :=
  ⟨by with_unfolding_all decide,
    alignStep_monotone_snapping [⟨0,10⟩] [⟨0,1⟩, ⟨2,3⟩, ⟨100,101⟩] ⟨0,0⟩
      ⟨"", 5, 6, 0⟩ ⟨"", 3, 2, -1⟩ ⟨0, 1⟩ ⟨2,3⟩ ⟨2,3⟩
      (by with_unfolding_all decide) (by decide) (by decide)⟩

/-- The code-side shot advance of the start phase computes the
spec-side "first shot ending after t" search: the loop guards
`end ≤ t` (keep going) and `t < end` (stop) are complementary. -/
theorem advShotLeGo_eq_spec (shots : List Shot) (t : ℚ) :
    ∀ (fuel i : Nat), advShotLeGo shots t fuel i = specFirstShotAfterGo shots t fuel i := by
  intro fuel
  induction fuel with
  | zero => intro i; rfl
  | succ n ih =>
    intro i
    cases hsi : shots[i]? with
    | none => simp [advShotLeGo, specFirstShotAfterGo, hsi]
    | some s =>
      simp only [advShotLeGo, specFirstShotAfterGo, hsi]
      by_cases h : s.end_time ≤ t
      · rw [if_pos h, if_neg (not_lt.mpr h)]
        exact ih (i+1)
      · rw [if_neg h, if_pos (not_le.mp h)]

/-- The code-side word advance of the start phase computes the spec-side
cursor: the bound `i + 1 < length - 1` is the spec's "never past the
second-to-last word", `i + 1 ≤ length - 2`. -/
theorem advWordNextGo_eq_spec (words : List Word) (t : ℚ) :
    ∀ (fuel i : Nat), advWordNextGo words t fuel i = specWordCursorGo words t fuel i := by
  intro fuel
  induction fuel with
  | zero => intro i; rfl
  | succ n ih =>
    intro i
    rw [advWordNextGo, specWordCursorGo]
    by_cases h : i + 1 < words.length - 1
    · have h2 : i + 1 ≤ words.length - 2 := by omega
      rw [dif_pos h, dif_pos h2]
      by_cases hc : (words.get ⟨i + 1, by omega⟩).endTime < t
      · rw [if_pos hc, if_pos hc]
        exact ih (i+1)
      · rw [if_neg hc, if_neg hc]
    · have h2 : ¬ (i + 1 ≤ words.length - 2) := by omega
      rw [dif_neg h, dif_neg h2]

/-- Wrapper form of `advShotLeGo_eq_spec`. -/
theorem specFirstShotAfter_eq (shots : List Shot) (t : ℚ) (i : Nat) :
    specFirstShotAfter shots t i = advanceShotLe shots t i :=
  (advShotLeGo_eq_spec shots t _ i).symm

/-- Wrapper form of `advWordNextGo_eq_spec`. -/
theorem specWordCursor_eq (words : List Word) (t : ℚ) (i : Nat) :
    specWordCursor words t i = advanceWordNext words t i :=
  (advWordNextGo_eq_spec words t _ i).symm

/-- Claim C4: the aligner's start computation refines its specification:
whenever `alignStep` succeeds, the adjusted start it stores equals the
spec-side value — advance the shot cursor past shots whose end is at most
the segment start, take `min(s.start, shot.start)`, advance the word
cursor while the next word ends before the segment start (never passing
the second-to-last word), and clamp with `max(tentative, prevWord.end)`
exactly when the cursor word does not start at the segment start. -/
theorem alignStep_start_refines_spec (shots : List Shot) (words : List Word)
    (c : Cursors) (line out : Segment) (cout : Cursors)
    (h : alignStep shots words c line = some (out, cout)) :
    specNewStart shots words c line = some out.startTime := by
  obtain ⟨si, vs, pw, si2, vs2, nw, h1, h2, h3, h4, h5, h6, h7, h8, h9, h10, h11⟩ :=
    alignStep_char shots words c line out cout h
  simp only [specNewStart, specFirstShotAfter_eq, specWordCursor_eq, h1, h2, h3,
    Option.some_bind]
  rw [h8]
  by_cases hne : pw.startTime ≠ line.startTime
  · rw [if_pos hne, if_pos hne, max_comm]
  · rw [if_neg hne, if_neg hne]

/-- Witness for C4: the spec-side start agrees with the code at a concrete
clamped step. -/
theorem alignStep_start_refines_spec_witness :
    alignStep [⟨0,10⟩] [⟨0,1⟩, ⟨2,3⟩, ⟨100,101⟩] ⟨0,0⟩ ⟨"", 5, 6, 0⟩ =
      some (⟨"", 3, 2, -1⟩, ⟨0, 1⟩) ∧
    specNewStart [⟨0,10⟩] [⟨0,1⟩, ⟨2,3⟩, ⟨100,101⟩] ⟨0,0⟩ ⟨"", 5, 6, 0⟩ = some 3 :=
  ⟨by with_unfolding_all decide,
   alignStep_start_refines_spec [⟨0,10⟩] [⟨0,1⟩, ⟨2,3⟩, ⟨100,101⟩] ⟨0,0⟩
     ⟨"", 5, 6, 0⟩ ⟨"", 3, 2, -1⟩ ⟨0, 1⟩ (by with_unfolding_all decide)⟩

/-- Counterexample for C5: all of the claim's stated preconditions hold at
this input (one shot `[0,10]` covering the segment, words sorted ascending
and non-overlapping, a single in-range segment `[5,6]`), yet the aligned
segment is `[3,2]` with duration `-1`: adjusted end < adjusted start. -/
theorem align_negative_duration_ce :
    ((0:ℚ) < 10) ∧
    ((0:ℚ) < 1 ∧ (1:ℚ) ≤ 2 ∧ (2:ℚ) < 3 ∧ (3:ℚ) ≤ 100 ∧ (100:ℚ) < 101) ∧
    ((0:ℚ) ≤ 5 ∧ (6:ℚ) ≤ 10) ∧ ((5:ℚ) < 6) ∧
    match_with_video_shots [⟨0,10⟩] [⟨"", 5, 6, 0⟩] [⟨0,1⟩, ⟨2,3⟩, ⟨100,101⟩] =
      some [⟨"", 3, 2, -1⟩] ∧
    ((2:ℚ) < 3 ∧ (-1:ℚ) < 0) := by
  refine ⟨?_, ?_, ?_, ?_, ?_, ?_⟩ <;> with_unfolding_all decide

/-- Claim C5 (amended): after alignment every segment's stored duration is
`end - start`, and `end ≥ start` is guaranteed for a segment whose clamp
words are consistent with it: the segment is well-formed
(`start ≤ end`), the cursor word ends no later than the segment end, the
next-word cursor starts no earlier than the segment start, and the two
clamp bounds are compatible (`prevWord.end ≤ nextWord.start`).  Without
these extra hypotheses — for example when the segment's time range
contains no word at all — the aligned end can drop strictly below the
aligned start (see the counterexample). -/
theorem alignStep_duration_nonneg_of_word_bounds (shots : List Shot) (words : List Word)
    (c : Cursors) (line out : Segment) (cout : Cursors) (pw nw : Word)
    (h : alignStep shots words c line = some (out, cout))
    (hp : words[advanceWordNext words line.startTime c.word]? = some pw)
    (hn : words[advanceWordCur words line.endTime
      (advanceWordNext words line.startTime c.word)]? = some nw)
    (h0 : line.startTime ≤ line.endTime)
    (h1 : pw.endTime ≤ line.endTime)
    (h2 : line.startTime ≤ nw.startTime)
    (h3 : pw.endTime ≤ nw.startTime) :
    out.duration = out.endTime - out.startTime ∧ out.startTime ≤ out.endTime := by
  obtain ⟨si, vs, pw', si2, vs2, nw', g1, g2, g3, g4, g5, g6, g7, g8, g9, g10, g11⟩ :=
    alignStep_char shots words c line out cout h
  have hpw : pw = pw' := by rw [hp] at g3; exact Option.some_injective _ g3
  have hnw : nw = nw' := by rw [hn] at g6; exact Option.some_injective _ g6
  subst hpw hnw
  refine ⟨g10, ?_⟩
  rw [g8, g9]
  have t1a : min line.startTime vs.start_time ≤ line.startTime := min_le_left _ _
  have t2a : line.endTime ≤ max line.endTime vs2.end_time := le_max_left _ _
  by_cases hs : pw.startTime ≠ line.startTime
  · rw [if_pos hs]
    by_cases he : nw.endTime ≠ line.endTime
    · rw [if_pos he]
      refine max_le (le_min ?_ ?_) (le_min ?_ ?_)
      · linarith
      · exact h3
      · linarith
      · linarith
    · rw [if_neg he]
      refine max_le ?_ ?_
      · linarith
      · linarith
  · rw [if_neg hs]
    by_cases he : nw.endTime ≠ line.endTime
    · rw [if_pos he]
      refine le_min ?_ ?_
      · linarith
      · linarith
    · rw [if_neg he]
      linarith

/-- Witness for C5 (amended): a segment `[4,7]` straddling real words;
both clamps fire and the aligned segment `[2,5]` still has non-negative
duration `3 = 5 - 2`. -/
theorem alignStep_duration_nonneg_of_word_bounds_witness :
    alignStep [⟨0,10⟩] [⟨1,2⟩, ⟨5,6⟩, ⟨9,11⟩] ⟨0,0⟩ ⟨"", 4, 7, 0⟩ =
      some (⟨"", 2, 5, 3⟩, ⟨0, 1⟩) ∧
    ((3:ℚ) = 5 - 2 ∧ (2:ℚ) ≤ 5) :=
  ⟨by with_unfolding_all decide,
   alignStep_duration_nonneg_of_word_bounds [⟨0,10⟩] [⟨1,2⟩, ⟨5,6⟩, ⟨9,11⟩] ⟨0,0⟩
     ⟨"", 4, 7, 0⟩ ⟨"", 2, 5, 3⟩ ⟨0, 1⟩ ⟨1,2⟩ ⟨5,6⟩
     (by with_unfolding_all decide) (by decide) (by decide)
     (by norm_num) (by norm_num) (by norm_num) (by norm_num)⟩

/-- Counterexample for C6: alignment is not idempotent.  With shot
`[1,10]`, words `[0,2],[3,4],[20,21],[22,23]` and segment `[5,6]`
(all preconditions hold, the shot covers the segment), one pass yields
`[4,10]` but a second pass on that output yields `[2,10]` — the
word-clamped start of the first pass is pulled further back by the
second. -/
theorem align_not_idempotent_ce :
    ((1:ℚ) < 10) ∧
    ((0:ℚ) < 2 ∧ (2:ℚ) ≤ 3 ∧ (3:ℚ) < 4 ∧ (4:ℚ) ≤ 20 ∧ (20:ℚ) < 21 ∧
      (21:ℚ) ≤ 22 ∧ (22:ℚ) < 23) ∧
    ((1:ℚ) ≤ 5 ∧ (6:ℚ) ≤ 10) ∧
    match_with_video_shots [⟨1,10⟩] [⟨"", 5, 6, 0⟩] [⟨0,2⟩, ⟨3,4⟩, ⟨20,21⟩, ⟨22,23⟩] =
      some [⟨"", 4, 10, 6⟩] ∧
    match_with_video_shots [⟨1,10⟩] [⟨"", 4, 10, 6⟩] [⟨0,2⟩, ⟨3,4⟩, ⟨20,21⟩, ⟨22,23⟩] =
      some [⟨"", 2, 10, 8⟩] ∧
    ¬ ((⟨"", 2, 10, 8⟩ : Segment) = ⟨"", 4, 10, 6⟩) := by
  refine ⟨?_, ?_, ?_, ?_, ?_, ?_⟩ <;> with_unfolding_all decide

/-- Claim C6 (amended): alignment is not idempotent in general — a second
pass can move a segment's start strictly earlier (counterexample above).
What remains is the fixed-point property itself: if one pass returns its
input unchanged, composing a second pass after the first still returns
that same sequence. -/
theorem align_fixed_point_persists (shots : List Shot) (words : List Word)
    (segs : List Segment)
    (h : match_with_video_shots shots segs words = some segs) :
    (match_with_video_shots shots segs words).bind
      (fun out => match_with_video_shots shots out words) = some segs := by
  simp [h]

/-- Witness for C6 (amended): a genuine fixed point of the aligner
(segment `[0,10]` equal to the only shot, with agreeing word boundaries). -/
theorem align_fixed_point_persists_witness :
    match_with_video_shots [⟨0,10⟩] [⟨"", 0, 10, 10⟩] [⟨0,1⟩, ⟨2,10⟩, ⟨11,12⟩] =
      some [⟨"", 0, 10, 10⟩] ∧
    (match_with_video_shots [⟨0,10⟩] [⟨"", 0, 10, 10⟩] [⟨0,1⟩, ⟨2,10⟩, ⟨11,12⟩]).bind
      (fun out => match_with_video_shots [⟨0,10⟩] out [⟨0,1⟩, ⟨2,10⟩, ⟨11,12⟩]) =
      some [⟨"", 0, 10, 10⟩] :=
  ⟨by with_unfolding_all decide,
   align_fixed_point_persists _ _ _ (by with_unfolding_all decide)⟩

/-! ## Claims about the blocked-response sentinel -/

/-- Concrete environment for the C7 counterexample: topic mode, and every
oracle reply is the blocked sentinel. -/
def envTopicBlocked : Env :=
  ⟨fun _ _ => "The response was blocked", fun s _ => s, fun s _ => s, id, fun s _ => s,
   id, id, id, fun _ => [], fun _ => [], [⟨0,1⟩], [], ["a"], none, none, none, none,
   some "topic"⟩

/-- Counterexample for C7: in topic mode the first oracle reply is the
blocked sentinel, yet the request does not fail with the blocked error —
it makes all three oracle calls and returns a segments result, silently
building its output from the sentinel text. -/
theorem topic_mode_ignores_blocked_ce :
    envTopicBlocked.oracle 0
      (envTopicBlocked.mkPromptSummarize "Line 0: a" envTopicBlocked.userPrompt) =
      blockedSentinel ∧
    summarizeModel envTopicBlocked 5 = (.ok [], 3) := by
  constructor
  · rfl
  · with_unfolding_all decide

/-- Claim C7 (amended): only in automated mode and only for the first
oracle reply is the blocked sentinel checked: if that reply is the
sentinel, the request fails immediately with the distinct blocked-response
error after exactly one oracle call, with no retry.  Replies produced
inside the retry loop, and all topic-mode replies, are not checked
(counterexample above). -/
theorem automated_first_blocked_returns_error (E : Env) (fuel : Nat)
    (hv : E.version = some "automated")
    (hb : E.oracle 0 (E.mkPrompt (String.intercalate "\n" E.texts) E.userPrompt) =
      blockedSentinel) :
    summarizeModel E fuel =
      (.blockedValue
        "The response was blocked due to potential violation of Responsible AI", 1) := by
  simp [summarizeModel, hv, hb]

/-- Concrete environment for the C7 witness: automated mode, blocked first
reply. -/
def envAutoBlocked : Env :=
  ⟨fun _ _ => "The response was blocked", fun s _ => s, fun s _ => s, id, fun s _ => s,
   id, id, id, fun _ => [], fun _ => [], [⟨0,1⟩], [], ["a"], none, none, none, none,
   some "automated"⟩

/-- Witness for C7 (amended): the automated-mode blocked path at a
concrete environment. -/
theorem automated_first_blocked_returns_error_witness :
    envAutoBlocked.version = some "automated" ∧
    envAutoBlocked.oracle 0
      (envAutoBlocked.mkPrompt (String.intercalate "\n" envAutoBlocked.texts)
        envAutoBlocked.userPrompt) = blockedSentinel ∧
    summarizeModel envAutoBlocked 4 =
      (.blockedValue
        "The response was blocked due to potential violation of Responsible AI", 1) :=
  ⟨rfl, rfl, automated_first_blocked_returns_error envAutoBlocked 4 rfl rfl⟩

end AdClip
